import Mathlib

/-!
Shallow embedding of the request-processing layer of the Emissions API
(`src/emissionsapi/web.py`): the date-parsing decorator `parse_date`, the
geometry-resolving decorator `parse_wkt_polygon`, and the two handlers
`get_data` and `get_average`, together with the statically linked helpers
from `emissionsapi.utils` and `emissionsapi.db` that the handlers call.

Python keyword arguments are modelled as an association list from strings
to a closed universe of values; machine floats become rationals (the code
only moves them around and compares them); datetimes become abstract
integer timestamps; the third-party date parser, the country table, the
polygon parser and the store are parameters of the pipeline.  Observable
side effects (country-table membership test, polygon parsing, session
acquisition, store queries) are recorded in an event trace.
-/

namespace EmissionsApi

/-- A canonical polygon boundary: an ordered list of (longitude, latitude)
vertices.  This stands for the WKT string the Python code builds. -/
abbrev Wkt := List (Rat × Rat)

/-- The universe of Python values that flow through the keyword arguments
of the two handlers. -/
inductive Value where
  | vStr (s : String)
  | vDate (t : Int)
  | vNums (xs : List Rat)
  | vCoords (xs : List (Rat × Rat))
  | vWkt (w : Wkt)
  | vInt (n : Int)
deriving DecidableEq

/-- Python `**kwargs`: an association list keyed by argument name. -/
abbrev Kwargs := List (String × Value)

/-- `kwargs.get(k)` — first binding of `k`, if any. -/
def kget (kw : Kwargs) (k : String) : Option Value :=
  match kw with
  | [] => none
  | (k1, v) :: rest => if k1 = k then some v else kget rest k

/-- Key removal, the effect of `kwargs.pop(k, None)` on the dictionary. -/
def kerase (kw : Kwargs) (k : String) : Kwargs :=
  match kw with
  | [] => []
  | (k1, v) :: rest => if k1 = k then kerase rest k else (k1, v) :: kerase rest k

/-- `kwargs[k] = v`. -/
def kset (kw : Kwargs) (k : String) (v : Value) : Kwargs :=
  kerase kw k ++ [(k, v)]

theorem kget_append (a b : Kwargs) (k : String) :
    kget (a ++ b) k = match kget a k with
      | some v => some v
      | none => kget b k := by
  induction a with
  | nil => simp [kget]
  | cons p rest ih =>
    obtain ⟨k1, v⟩ := p
    by_cases h : k1 = k <;> simp [kget, h, ih]

theorem kget_kerase (kw : Kwargs) (k k1 : String) :
    kget (kerase kw k) k1 = if k1 = k then none else kget kw k1 := by
  induction kw with
  | nil => simp [kget, kerase]
  | cons p rest ih =>
    obtain ⟨k2, v⟩ := p
    by_cases h : k2 = k <;> by_cases h2 : k2 = k1 <;> by_cases h1 : k1 = k <;>
      simp_all [kget, kerase]

theorem kget_kset (kw : Kwargs) (k k1 : String) (v : Value) :
    kget (kset kw k v) k1 = if k1 = k then some v else kget kw k1 := by
  unfold kset
  rw [kget_append, kget_kerase]
  by_cases h : k1 = k
  · simp [kget, h]
  · have h2 : k ≠ k1 := fun hh => h hh.symm
    cases hk : kget kw k1 <;> simp [kget, h, h2, hk]

/-- A bounding rectangle: min-longitude, min-latitude, max-longitude,
max-latitude.  This is the payload the country table associates to a code. -/
structure BBox where
  lon1 : Rat
  lat1 : Rat
  lon2 : Rat
  lat2 : Rat
deriving DecidableEq

/-- Modelled from the spec: `bounding_box_to_wkt` lives in
`emissionsapi/utils.py`, which is not under `src/`.  Per the spec it
validates that the input decomposes into four numeric values forming a
well-formed rectangle (min ≤ max on each axis) and converts it to a closed
5-vertex polygon boundary tracing the rectangle corners in a fixed winding
order, first vertex repeated as last; malformed input raises the
`ValueError` its caller catches, modelled by `none`. -/
def bounding_box_to_wkt (xs : List Rat) : Option Wkt :=
  match xs with
  | [lon1, lat1, lon2, lat2] =>
    if lon1 ≤ lon2 ∧ lat1 ≤ lat2 then
      some [(lon1, lat1), (lon1, lat2), (lon2, lat2), (lon2, lat1), (lon1, lat1)]
    else none
  | _ => none

/-- `bounding_box_to_wkt(*geoframe)` as called on the raw `geoframe`
keyword value: anything that is not a list of numbers is malformed. -/
def geoframe_to_wkt (v : Value) : Option Wkt :=
  match v with
  | Value.vNums xs => bounding_box_to_wkt xs
  | _ => none

/-- `country in country_bounding_boxes` followed by
`country_bounding_boxes[country][1]`: a membership test plus projection to
the stored bounding rectangle.  The table itself
(`emissionsapi/country_bounding_boxes.py`, not under `src/`) is a parameter. -/
def countryLookup (table : String → Option BBox) (v : Value) : Option BBox :=
  match v with
  | Value.vStr c => table c
  | _ => none

/-- Observable side effects of one request, recorded in occurrence order. -/
inductive Event where
  | evCountryLookup (code : Value)
  | evPolygonParse (p : Value)
  | evSessionAcquired
  | evStorePoints (polygon : Option Wkt) (b : Option Int) (e : Option Int)
  | evStoreAverages (polygon : Option Wkt) (b : Option Int) (e : Option Int)
deriving DecidableEq

/-- Result of a (possibly wrapped) handler call: a success value, the
`(message, code)` pair a wrapper returns on a validation failure, or an
uncaught Python exception. -/
inductive Outcome (A : Type) where
  | ok (a : A)
  | clientError (msg : String) (code : Nat)
  | crash
deriving DecidableEq

/-- The removal of the three raw geometry keys performed by the
`kwargs.pop` calls at the top of `parse_wkt_polygon.decorated`. -/
def kerase3 (kw : Kwargs) : Kwargs :=
  kerase (kerase (kerase kw "geoframe") "country") "polygon"

/-- The body of `parse_wkt_polygon.decorated` up to (but excluding) the
call of the wrapped function: pops `geoframe`, `country` and `polygon`,
resolves them by the `if`/`elif` chain into a `wkt_polygon` keyword, and
returns a `(message, 400)` pair on a validation failure.  `polyParse`
stands for `polygon_to_wkt` (`emissionsapi/utils.py`, not under `src/`):
`Except.error msg` is a raised `RESTParamError(msg)`. -/
def parse_wkt_polygon_step (table : String → Option BBox)
    (polyParse : Value → Except String Wkt)
    (kw : Kwargs) : Outcome Kwargs × List Event :=
  match kget kw "geoframe" with
  | some g =>
    match geoframe_to_wkt g with
    | some w => (Outcome.ok (kset (kerase3 kw) "wkt_polygon" (Value.vWkt w)), [])
    | none => (Outcome.clientError "Invalid geoparam" 400, [])
  | none =>
    match kget kw "country" with
    | some c =>
      match countryLookup table c with
      | none =>
        (Outcome.clientError "Unknown country code." 400, [Event.evCountryLookup c])
      | some b =>
        match bounding_box_to_wkt [b.lon1, b.lat1, b.lon2, b.lat2] with
        | some w =>
          (Outcome.ok (kset (kerase3 kw) "wkt_polygon" (Value.vWkt w)),
            [Event.evCountryLookup c])
        | none => (Outcome.crash, [Event.evCountryLookup c])
    | none =>
      match kget kw "polygon" with
      | some p =>
        match polyParse p with
        | Except.ok w =>
          (Outcome.ok (kset (kerase3 kw) "wkt_polygon" (Value.vWkt w)),
            [Event.evPolygonParse p])
        | Except.error msg =>
          (Outcome.clientError msg 400, [Event.evPolygonParse p])
      | none => (Outcome.ok (kerase3 kw), [])

/-- One iteration of the loop in `parse_date.wrap.wrapped_f` for key `k`:
absent keys are skipped, a string value is parsed (`dateutil.parser.parse`
is the parameter `parseDate`, `none` standing for a raised `ValueError`)
and written back, an unparseable string returns `('Invalid <k>', 400)`.
A present non-string value would make `dateutil` raise an uncaught
`TypeError`. -/
def parse_date_one (parseDate : String → Option Int) (k : String)
    (kw : Kwargs) : Outcome Kwargs :=
  match kget kw k with
  | none => Outcome.ok kw
  | some (Value.vStr s) =>
    match parseDate s with
    | some t => Outcome.ok (kset kw k (Value.vDate t))
    | none => Outcome.clientError ("Invalid " ++ k) 400
  | some _ => Outcome.crash

/-- The whole loop of `parse_date.wrap.wrapped_f` over its keys, stopping
at the first failure. -/
def parse_date_step (parseDate : String → Option Int) (keys : List String)
    (kw : Kwargs) : Outcome Kwargs :=
  match keys with
  | [] => Outcome.ok kw
  | k :: rest =>
    match parse_date_one parseDate k kw with
    | Outcome.ok kw2 => parse_date_step parseDate rest kw2
    | Outcome.clientError m c => Outcome.clientError m c
    | Outcome.crash => Outcome.crash

/-- A store row object for the point query: `obj.value` and
`obj.timestamp` are the two attributes `get_data` reads. -/
structure Sample where
  value : Rat
  timestamp : Int
deriving DecidableEq

/-- `geojson.Feature(geometry=geojson.Point((longitude, latitude)),
properties={"carbonmonoxide": ..., "timestamp": ...})`. -/
structure Feature where
  geometry : Rat × Rat
  carbonmonoxide : Rat
  timestamp : Int
deriving DecidableEq

/-- `geojson.FeatureCollection(features)`. -/
structure FeatureCollection where
  features : List Feature
deriving DecidableEq

/-- One record of the `get_average` response:
`{'average': avg, 'start': min_time, 'end': max_time}`. -/
structure AvgRecord where
  average : Rat
  start : Int
  «end» : Int
deriving DecidableEq

/-- Modelled from the spec: `limit_offset_query` lives in
`emissionsapi/db.py`, which is not under `src/`.  Per the spec it narrows
the row sequence to the window given by optional `limit`/`offset` (offset
applied first) and is a pass-through when they are absent. -/
def limit_offset_query {A : Type} (rows : List A)
    (limit offset : Option Nat) : List A :=
  match limit, offset with
  | none, none => rows
  | none, some o => rows.drop o
  | some l, none => rows.take l
  | some l, some o => (rows.drop o).take l

/-- Handler-side read of `wkt_polygon` (default `None`). -/
def getWkt (kw : Kwargs) : Option Wkt :=
  match kget kw "wkt_polygon" with
  | some (Value.vWkt w) => some w
  | _ => none

/-- Handler-side read of a parsed date keyword (default `None`). -/
def getDate (kw : Kwargs) (k : String) : Option Int :=
  match kget kw k with
  | some (Value.vDate t) => some t
  | _ => none

/-- Handler-side read of `limit`/`offset` (default `None`); per the spec
these are optional non-negative integers. -/
def getCount (kw : Kwargs) (k : String) : Option Nat :=
  match kget kw k with
  | some (Value.vInt n) => some n.toNat
  | _ => none

/-- The row loop of `get_data`: starts from the empty feature list and
appends one `geojson.Feature` per `(obj, longitude, latitude)` row, then
wraps the list in a `FeatureCollection`. -/
def get_data_shape (rows : List (Sample × Rat × Rat)) : FeatureCollection :=
  { features := rows.foldl
      (fun features row =>
        features ++ [{ geometry := (row.2.1, row.2.2),
                       carbonmonoxide := row.1.value,
                       timestamp := row.1.timestamp }]) [] }

/-- The row loop of `get_average`: appends
`{'average': avg, 'start': min_time, 'end': max_time}` per
`(avg, max_time, min_time, _)` row, dropping the fourth field. -/
def get_average_shape (rows : List (Rat × Int × Int × Nat)) : List AvgRecord :=
  rows.foldl
    (fun result row =>
      result ++ [{ average := row.1, start := row.2.2.1, «end» := row.2.1 }]) []

/-- The body of `get_data` after its decorators: queries the store
(`emissionsapi.db.get_points`, not under `src/`, is the parameter
`store`), applies `limit_offset_query`, and shapes the rows. -/
def get_data_core
    (store : Option Wkt → Option Int → Option Int → List (Sample × Rat × Rat))
    (kw : Kwargs) : FeatureCollection × List Event :=
  let w := getWkt kw
  let b := getDate kw "begin"
  let e := getDate kw "end"
  let rows := limit_offset_query (store w b e) (getCount kw "limit") (getCount kw "offset")
  (get_data_shape rows, [Event.evStorePoints w b e])

/-- The body of `get_average` after its decorators
(`emissionsapi.db.get_averages` is the parameter `store`). -/
def get_average_core
    (store : Option Wkt → Option Int → Option Int → List (Rat × Int × Int × Nat))
    (kw : Kwargs) : List AvgRecord × List Event :=
  let w := getWkt kw
  let b := getDate kw "begin"
  let e := getDate kw "end"
  let rows := limit_offset_query (store w b e) (getCount kw "limit") (getCount kw "offset")
  (get_average_shape rows, [Event.evStoreAverages w b e])

/-- The fully decorated `get_data` endpoint.  The decorator stack
`@parse_wkt_polygon` / `@parse_date('begin', 'end')` /
`@emissionsapi.db.with_session` runs outermost first, so a request passes
through geometry resolution, then date parsing, then session acquisition
(`with_session` is from `emissionsapi/db.py`, not under `src/`; per the
spec it acquires the store session and passes it to the handler, modelled
by the `evSessionAcquired` event), then the handler body. -/
def get_data_pipeline (table : String → Option BBox)
    (polyParse : Value → Except String Wkt)
    (parseDate : String → Option Int)
    (store : Option Wkt → Option Int → Option Int → List (Sample × Rat × Rat))
    (kw : Kwargs) : Outcome FeatureCollection × List Event :=
  match parse_wkt_polygon_step table polyParse kw with
  | (Outcome.ok kw1, tr1) =>
    match parse_date_step parseDate ["begin", "end"] kw1 with
    | Outcome.ok kw2 =>
      let r := get_data_core store kw2
      (Outcome.ok r.1, tr1 ++ Event.evSessionAcquired :: r.2)
    | Outcome.clientError m c => (Outcome.clientError m c, tr1)
    | Outcome.crash => (Outcome.crash, tr1)
  | (Outcome.clientError m c, tr1) => (Outcome.clientError m c, tr1)
  | (Outcome.crash, tr1) => (Outcome.crash, tr1)

/-- The fully decorated `get_average` endpoint; same decorator stack as
`get_data_pipeline`. -/
def get_average_pipeline (table : String → Option BBox)
    (polyParse : Value → Except String Wkt)
    (parseDate : String → Option Int)
    (store : Option Wkt → Option Int → Option Int → List (Rat × Int × Int × Nat))
    (kw : Kwargs) : Outcome (List AvgRecord) × List Event :=
  match parse_wkt_polygon_step table polyParse kw with
  | (Outcome.ok kw1, tr1) =>
    match parse_date_step parseDate ["begin", "end"] kw1 with
    | Outcome.ok kw2 =>
      let r := get_average_core store kw2
      (Outcome.ok r.1, tr1 ++ Event.evSessionAcquired :: r.2)
    | Outcome.clientError m c => (Outcome.clientError m c, tr1)
    | Outcome.crash => (Outcome.crash, tr1)
  | (Outcome.clientError m c, tr1) => (Outcome.clientError m c, tr1)
  | (Outcome.crash, tr1) => (Outcome.crash, tr1)

/-- A small concrete country table used to evaluate the theorems on
closed inputs. -/
def table0 : String → Option BBox := fun c =>
  if c = "DE" then some { lon1 := 5, lat1 := 47, lon2 := 15, lat2 := 55 } else none

/-- A concrete polygon parser rejecting every input, used to evaluate the
theorems on closed inputs. -/
def polyParse0 : Value → Except String Wkt := fun _ =>
  Except.error "Invalid polygon"

/-- A concrete date parser accepting exactly one string, used to evaluate
the theorems on closed inputs. -/
def parseDate0 : String → Option Int := fun s =>
  if s = "2019-01-01" then some 100 else none

/-- A concrete point store, used to evaluate the theorems on closed
inputs. -/
def store0 : Option Wkt → Option Int → Option Int → List (Sample × Rat × Rat) :=
  fun _ _ _ => [({ value := 2, timestamp := 5 }, 10, 20)]

/-- A concrete averages store, used to evaluate the theorems on closed
inputs. -/
def storeAvg0 : Option Wkt → Option Int → Option Int → List (Rat × Int × Int × Nat) :=
  fun _ _ _ => [(3, 9, 7, 4)]

/-- No session-acquisition and no store-query event occurs in the trace. -/
def noStoreOrSession (tr : List Event) : Prop :=
  ∀ e ∈ tr, e ≠ Event.evSessionAcquired ∧
    (∀ w b en, e ≠ Event.evStorePoints w b en) ∧
    (∀ w b en, e ≠ Event.evStoreAverages w b en)

theorem foldl_append_map {A B : Type} (f : A → B) (rows : List A) (acc : List B) :
    rows.foldl (fun a r => a ++ [f r]) acc = acc ++ rows.map f := by
  induction rows generalizing acc with
  | nil => simp
  | cons r rest ih => simp [ih]

theorem resolver_code_400 (table : String → Option BBox)
    (polyParse : Value → Except String Wkt) (kw : Kwargs) (m : String) (c : Nat)
    (h : (parse_wkt_polygon_step table polyParse kw).1 = Outcome.clientError m c) :
    c = 400 := by
  unfold parse_wkt_polygon_step at h
  repeat' split at h
  all_goals simp_all

theorem date_step_code_400 (parseDate : String → Option Int) (keys : List String)
    (kw : Kwargs) (m : String) (c : Nat)
    (h : parse_date_step parseDate keys kw = Outcome.clientError m c) :
    c = 400 := by
  induction keys generalizing kw with
  | nil => simp [parse_date_step] at h
  | cons k rest ih =>
    unfold parse_date_step at h
    split at h
    · exact ih _ h
    · rename_i heq
      unfold parse_date_one at heq
      repeat' split at heq
      all_goals simp_all
    · simp_all

theorem resolver_trace_no_store (table : String → Option BBox)
    (polyParse : Value → Except String Wkt) (kw : Kwargs) :
    noStoreOrSession (parse_wkt_polygon_step table polyParse kw).2 := by
  unfold noStoreOrSession parse_wkt_polygon_step
  repeat' split
  all_goals simp_all

theorem kget_kerase3 (kw : Kwargs) (k : String) :
    kget (kerase3 kw) k =
      if k = "geoframe" ∨ k = "country" ∨ k = "polygon" then none
      else kget kw k := by
  unfold kerase3
  rw [kget_kerase, kget_kerase, kget_kerase]
  by_cases h1 : k = "geoframe" <;> by_cases h2 : k = "country" <;>
    by_cases h3 : k = "polygon" <;> simp_all

/-- C1: whenever `geoframe` is supplied, the resolver honors it alone —
its outcome does not depend on the country table or the polygon parser,
and the trace records neither a country-table lookup nor a polygon
examination; whenever `geoframe` is absent and `country` is supplied, the
polygon input is never examined.  Together with the `if`/`elif` shape of
`parse_wkt_polygon_step` this is the fixed precedence geoframe > country >
polygon, first match wins. -/
theorem resolver_precedence (table : String → Option BBox)
    (polyParse : Value → Except String Wkt) (kw : Kwargs) :
    (∀ g, kget kw "geoframe" = some g →
      (∀ table2 polyParse2, parse_wkt_polygon_step table polyParse kw
        = parse_wkt_polygon_step table2 polyParse2 kw) ∧
      (∀ e ∈ (parse_wkt_polygon_step table polyParse kw).2,
        (∀ c, e ≠ Event.evCountryLookup c) ∧ (∀ p, e ≠ Event.evPolygonParse p))) ∧
    (∀ c, kget kw "geoframe" = none → kget kw "country" = some c →
      (∀ polyParse2, parse_wkt_polygon_step table polyParse kw
        = parse_wkt_polygon_step table polyParse2 kw) ∧
      (∀ e ∈ (parse_wkt_polygon_step table polyParse kw).2,
        ∀ p, e ≠ Event.evPolygonParse p)) := by
  constructor
  · intro g hg
    constructor
    · intro table2 polyParse2
      unfold parse_wkt_polygon_step
      rw [hg]
    · intro e he
      unfold parse_wkt_polygon_step at he
      repeat' split at he
      all_goals simp_all
  · intro c hg hc
    constructor
    · intro polyParse2
      unfold parse_wkt_polygon_step
      rw [hg, hc]
    · intro e he
      unfold parse_wkt_polygon_step at he
      repeat' split at he
      all_goals simp_all

/-- Closed instantiation of `resolver_precedence`: with all three variants
supplied, exchanging the country table and the polygon parser does not
change the resolver's behavior. -/
theorem resolver_precedence_witness :
    parse_wkt_polygon_step table0 polyParse0
      [("geoframe", Value.vNums [1, 1, 2, 2]), ("country", Value.vStr "DE"),
        ("polygon", Value.vCoords [(1, 2)])]
    = parse_wkt_polygon_step (fun _ => none) (fun _ => Except.ok [])
      [("geoframe", Value.vNums [1, 1, 2, 2]), ("country", Value.vStr "DE"),
        ("polygon", Value.vCoords [(1, 2)])] :=
  ((resolver_precedence table0 polyParse0 _).1 (Value.vNums [1, 1, 2, 2])
    (by decide)).1 (fun _ => none) (fun _ => Except.ok [])

/-- C2: when the highest-precedence variant that is present is invalid,
the resolver returns the corresponding `(message, 400)` pair at once and
never falls through to a lower-precedence variant. -/
theorem resolver_selected_invalid (table : String → Option BBox)
    (polyParse : Value → Except String Wkt) (kw : Kwargs) :
    (∀ g, kget kw "geoframe" = some g → geoframe_to_wkt g = none →
      parse_wkt_polygon_step table polyParse kw
        = (Outcome.clientError "Invalid geoparam" 400, [])) ∧
    (∀ c, kget kw "geoframe" = none → kget kw "country" = some c →
      countryLookup table c = none →
      parse_wkt_polygon_step table polyParse kw
        = (Outcome.clientError "Unknown country code." 400,
            [Event.evCountryLookup c])) ∧
    (∀ p d, kget kw "geoframe" = none → kget kw "country" = none →
      kget kw "polygon" = some p → polyParse p = Except.error d →
      parse_wkt_polygon_step table polyParse kw
        = (Outcome.clientError d 400, [Event.evPolygonParse p])) := by
  refine ⟨?_, ?_, ?_⟩
  · intro g hg hw
    simp [parse_wkt_polygon_step, hg, hw]
  · intro c hg hc hl
    simp [parse_wkt_polygon_step, hg, hc, hl]
  · intro p d hg hc hp hparse
    simp [parse_wkt_polygon_step, hg, hc, hp, hparse]

/-- Closed instantiation of `resolver_selected_invalid` at a malformed
geoframe, an unknown country code and a rejected polygon. -/
theorem resolver_selected_invalid_witness :
    parse_wkt_polygon_step table0 polyParse0
        [("geoframe", Value.vNums [1, 2, 3]), ("country", Value.vStr "DE")]
      = (Outcome.clientError "Invalid geoparam" 400, []) ∧
    parse_wkt_polygon_step table0 polyParse0 [("country", Value.vStr "ZZ")]
      = (Outcome.clientError "Unknown country code." 400,
          [Event.evCountryLookup (Value.vStr "ZZ")]) ∧
    parse_wkt_polygon_step table0 polyParse0 [("polygon", Value.vCoords [(1, 2)])]
      = (Outcome.clientError "Invalid polygon" 400,
          [Event.evPolygonParse (Value.vCoords [(1, 2)])]) :=
  ⟨(resolver_selected_invalid table0 polyParse0
      [("geoframe", Value.vNums [1, 2, 3]), ("country", Value.vStr "DE")]).1
      (Value.vNums [1, 2, 3]) (by decide) (by decide),
    (resolver_selected_invalid table0 polyParse0 [("country", Value.vStr "ZZ")]).2.1
      (Value.vStr "ZZ") (by decide) (by decide) (by decide),
    (resolver_selected_invalid table0 polyParse0
      [("polygon", Value.vCoords [(1, 2)])]).2.2
      (Value.vCoords [(1, 2)]) "Invalid polygon" (by decide) (by decide)
      (by decide) rfl⟩

/-- C6: with no `geoframe` supplied, a country code absent from the table
fails with exactly `('Unknown country code.', 400)`, and a known code's
bounding rectangle goes through `bounding_box_to_wkt`, the same
rectangle-to-polygon conversion `geoframe_to_wkt` uses for `geoframe`. -/
theorem country_resolution (table : String → Option BBox)
    (polyParse : Value → Except String Wkt) (kw : Kwargs) :
    (∀ c, kget kw "geoframe" = none → kget kw "country" = some (Value.vStr c) →
      table c = none →
      parse_wkt_polygon_step table polyParse kw
        = (Outcome.clientError "Unknown country code." 400,
            [Event.evCountryLookup (Value.vStr c)])) ∧
    (∀ c b, kget kw "geoframe" = none → kget kw "country" = some (Value.vStr c) →
      table c = some b →
      parse_wkt_polygon_step table polyParse kw
        = (match bounding_box_to_wkt [b.lon1, b.lat1, b.lon2, b.lat2] with
            | some w => Outcome.ok (kset (kerase3 kw) "wkt_polygon" (Value.vWkt w))
            | none => Outcome.crash,
            [Event.evCountryLookup (Value.vStr c)])) ∧
    (∀ b : BBox, geoframe_to_wkt (Value.vNums [b.lon1, b.lat1, b.lon2, b.lat2])
      = bounding_box_to_wkt [b.lon1, b.lat1, b.lon2, b.lat2]) := by
  refine ⟨?_, ?_, ?_⟩
  · intro c hg hc hl
    simp [parse_wkt_polygon_step, countryLookup, hg, hc, hl]
  · intro c b hg hc hl
    simp only [parse_wkt_polygon_step, countryLookup, hg, hc, hl]
    split <;> simp_all
  · intro b
    rfl

/-- Closed instantiation of `country_resolution` at the unknown code `ZZ`
and the known code `DE` of the concrete table. -/
theorem country_resolution_witness :
    parse_wkt_polygon_step table0 polyParse0 [("country", Value.vStr "ZZ")]
      = (Outcome.clientError "Unknown country code." 400,
          [Event.evCountryLookup (Value.vStr "ZZ")]) ∧
    parse_wkt_polygon_step table0 polyParse0 [("country", Value.vStr "DE")]
      = (match bounding_box_to_wkt [5, 47, 15, 55] with
          | some w => Outcome.ok
              (kset (kerase3 [("country", Value.vStr "DE")]) "wkt_polygon"
                (Value.vWkt w))
          | none => Outcome.crash,
          [Event.evCountryLookup (Value.vStr "DE")]) :=
  ⟨(country_resolution table0 polyParse0 [("country", Value.vStr "ZZ")]).1 "ZZ"
      (by decide) (by decide) (by decide),
    (country_resolution table0 polyParse0 [("country", Value.vStr "DE")]).2.1 "DE"
      { lon1 := 5, lat1 := 47, lon2 := 15, lat2 := 55 }
      (by decide) (by decide) (by decide)⟩

/-- C7: a supplied `geoframe` that does not decompose into four
well-formed numbers forming a rectangle is answered with exactly
`('Invalid geoparam', 400)`; in particular `bounding_box_to_wkt` rejects
every argument list whose length is not four (arity errors) and every
four-number list violating min ≤ max on an axis. -/
theorem invalid_geoframe (table : String → Option BBox)
    (polyParse : Value → Except String Wkt) (kw : Kwargs) :
    (∀ g, kget kw "geoframe" = some g → geoframe_to_wkt g = none →
      parse_wkt_polygon_step table polyParse kw
        = (Outcome.clientError "Invalid geoparam" 400, [])) ∧
    (∀ xs, xs.length ≠ 4 → bounding_box_to_wkt xs = none) ∧
    (∀ lon1 lat1 lon2 lat2 : Rat, ¬ (lon1 ≤ lon2 ∧ lat1 ≤ lat2) →
      bounding_box_to_wkt [lon1, lat1, lon2, lat2] = none) := by
  refine ⟨?_, ?_, ?_⟩
  · intro g hg hw
    simp [parse_wkt_polygon_step, hg, hw]
  · intro xs hlen
    unfold bounding_box_to_wkt
    split
    · simp_all
    · rfl
  · intro lon1 lat1 lon2 lat2 hrect
    simp [bounding_box_to_wkt, hrect]

/-- Closed instantiation of `invalid_geoframe` at a three-element
geoframe. -/
theorem invalid_geoframe_witness :
    parse_wkt_polygon_step table0 polyParse0 [("geoframe", Value.vNums [1, 2, 3])]
      = (Outcome.clientError "Invalid geoparam" 400, []) ∧
    bounding_box_to_wkt [1, 2, 3] = none ∧
    bounding_box_to_wkt [9, 2, 3, 4] = none :=
  ⟨(invalid_geoframe table0 polyParse0
      [("geoframe", Value.vNums [1, 2, 3])]).1 (Value.vNums [1, 2, 3])
      (by decide) (by decide),
    (invalid_geoframe table0 polyParse0 []).2.1 [1, 2, 3] (by decide),
    (invalid_geoframe table0 polyParse0 []).2.2 9 2 3 4 (by decide)⟩

/-- C10: the resolver pops `geoframe`, `country` and `polygon` before the
wrapped handler can run — the handler's keyword arguments never contain
them — all other keywords reach the handler unchanged except for the added
`wkt_polygon`, and when no variant is supplied no `wkt_polygon` key is
added, so the handler falls back to its `wkt_polygon=None` default. -/
theorem resolver_kwargs_effect (table : String → Option BBox)
    (polyParse : Value → Except String Wkt) (kw : Kwargs) :
    (∀ kw1 tr, parse_wkt_polygon_step table polyParse kw = (Outcome.ok kw1, tr) →
      kget kw1 "geoframe" = none ∧ kget kw1 "country" = none ∧
      kget kw1 "polygon" = none ∧
      (∀ k, k ≠ "geoframe" → k ≠ "country" → k ≠ "polygon" → k ≠ "wkt_polygon" →
        kget kw1 k = kget kw k)) ∧
    (kget kw "geoframe" = none → kget kw "country" = none →
      kget kw "polygon" = none →
      parse_wkt_polygon_step table polyParse kw = (Outcome.ok (kerase3 kw), []) ∧
      kget (kerase3 kw) "wkt_polygon" = kget kw "wkt_polygon" ∧
      (kget kw "wkt_polygon" = none → getWkt (kerase3 kw) = none)) := by
  constructor
  · intro kw1 tr h
    unfold parse_wkt_polygon_step at h
    repeat' split at h
    all_goals simp only [Prod.mk.injEq, Outcome.ok.injEq, reduceCtorEq,
      false_and] at h
    all_goals obtain ⟨h1, h2⟩ := h
    all_goals subst h1
    all_goals refine ⟨by simp [kget_kset, kget_kerase3],
      by simp [kget_kset, kget_kerase3], by simp [kget_kset, kget_kerase3], ?_⟩
    all_goals intro k hk1 hk2 hk3 hk4
    all_goals simp [kget_kset, kget_kerase3, hk1, hk2, hk3, hk4]
  · intro hg hc hp
    refine ⟨?_, ?_, ?_⟩
    · simp [parse_wkt_polygon_step, hg, hc, hp]
    · simp [kget_kerase3]
    · intro hw
      simp [getWkt, kget_kerase3, hw]

/-- Closed instantiation of `resolver_kwargs_effect`: with no geometry
variant supplied, only the three raw keys are removed and the handler sees
no spatial filter. -/
theorem resolver_kwargs_effect_witness :
    parse_wkt_polygon_step table0 polyParse0 [("limit", Value.vInt 5)]
      = (Outcome.ok (kerase3 [("limit", Value.vInt 5)]), []) ∧
    getWkt (kerase3 [("limit", Value.vInt 5)]) = none :=
  ⟨((resolver_kwargs_effect table0 polyParse0 [("limit", Value.vInt 5)]).2
      (by decide) (by decide) (by decide)).1,
    ((resolver_kwargs_effect table0 polyParse0 [("limit", Value.vInt 5)]).2
      (by decide) (by decide) (by decide)).2.2 (by decide)⟩

/-- C5: for each of the fixed fields `begin` and `end`, independently: an
absent field leaves the keyword arguments unchanged and processing
continues, a parseable raw string is replaced by its parsed timestamp, and
an unparseable raw string stops the loop with `('Invalid <field>', 400)`;
the whole stage is the sequential composition of the two per-field steps,
`begin` first. -/
theorem parse_date_fields (parseDate : String → Option Int) (kw : Kwargs) :
    (parse_date_step parseDate ["begin", "end"] kw
      = match parse_date_one parseDate "begin" kw with
        | Outcome.ok kw1 => parse_date_one parseDate "end" kw1
        | Outcome.clientError m c => Outcome.clientError m c
        | Outcome.crash => Outcome.crash) ∧
    (∀ k, kget kw k = none → parse_date_one parseDate k kw = Outcome.ok kw) ∧
    (∀ k s t, kget kw k = some (Value.vStr s) → parseDate s = some t →
      parse_date_one parseDate k kw = Outcome.ok (kset kw k (Value.vDate t))) ∧
    (∀ k s, kget kw k = some (Value.vStr s) → parseDate s = none →
      parse_date_one parseDate k kw
        = Outcome.clientError ("Invalid " ++ k) 400) := by
  refine ⟨?_, ?_, ?_, ?_⟩
  · cases h : parse_date_one parseDate "begin" kw with
    | ok kw1 =>
      cases h2 : parse_date_one parseDate "end" kw1 <;>
        simp [parse_date_step, h, h2]
    | clientError m c => simp [parse_date_step, h]
    | crash => simp [parse_date_step, h]
  · intro k hk
    simp [parse_date_one, hk]
  · intro k s t hk hp
    simp [parse_date_one, hk, hp]
  · intro k s hk hp
    simp [parse_date_one, hk, hp]

/-- Closed instantiation of `parse_date_fields`: an unparseable `begin`
yields `('Invalid begin', 400)`, a parseable `end` is replaced by its
timestamp, and an absent field is passed through. -/
theorem parse_date_fields_witness :
    parse_date_one parseDate0 "begin" [("begin", Value.vStr "nope")]
      = Outcome.clientError "Invalid begin" 400 ∧
    parse_date_one parseDate0 "end" [("end", Value.vStr "2019-01-01")]
      = Outcome.ok (kset [("end", Value.vStr "2019-01-01")] "end" (Value.vDate 100)) ∧
    parse_date_one parseDate0 "begin" [("end", Value.vStr "2019-01-01")]
      = Outcome.ok [("end", Value.vStr "2019-01-01")] :=
  ⟨(parse_date_fields parseDate0 [("begin", Value.vStr "nope")]).2.2.2 "begin"
      "nope" (by decide) (by decide),
    (parse_date_fields parseDate0 [("end", Value.vStr "2019-01-01")]).2.2.1 "end"
      "2019-01-01" 100 (by decide) (by decide),
    (parse_date_fields parseDate0 [("end", Value.vStr "2019-01-01")]).2.1 "begin"
      (by decide)⟩

/-- C8: the point shaper emits exactly one feature per store row, in
store-returned order, whose geometry is the single point
`(longitude, latitude)` and whose properties are the measurement value and
the timestamp; the empty row sequence yields a feature collection with
zero features, not an error. -/
theorem point_shaping (rows : List (Sample × Rat × Rat)) :
    (get_data_shape rows).features
      = rows.map (fun row =>
          { geometry := (row.2.1, row.2.2),
            carbonmonoxide := row.1.value,
            timestamp := row.1.timestamp }) ∧
    (get_data_shape rows).features.length = rows.length ∧
    get_data_shape [] = { features := [] } := by
  have h : (get_data_shape rows).features
      = rows.map (fun row =>
          ({ geometry := (row.2.1, row.2.2),
             carbonmonoxide := row.1.value,
             timestamp := row.1.timestamp } : Feature)) := by
    unfold get_data_shape
    simpa using foldl_append_map _ rows []
  refine ⟨h, ?_, rfl⟩
  rw [h]
  simp

/-- C9: the average shaper emits exactly one `{average, start, end}`
record per store row `(average, window_end, window_start, extra)`, in
store order, discarding the fourth field; the empty row sequence yields
the empty list. -/
theorem average_shaping (rows : List (Rat × Int × Int × Nat)) :
    get_average_shape rows
      = rows.map (fun row =>
          { average := row.1, start := row.2.2.1, «end» := row.2.1 }) ∧
    get_average_shape [] = [] ∧
    (∀ (avg : Rat) (tEnd tStart : Int) (cnt cnt2 : Nat),
      get_average_shape [(avg, tEnd, tStart, cnt)]
        = get_average_shape [(avg, tEnd, tStart, cnt2)]) ∧
    (∀ (avg : Rat) (tEnd tStart : Int) (cnt : Nat),
      get_average_shape [(avg, tEnd, tStart, cnt)]
        = [{ average := avg, start := tStart, «end» := tEnd }]) := by
  refine ⟨?_, rfl, ?_, ?_⟩
  · unfold get_average_shape
    simpa using foldl_append_map _ rows []
  · intro avg tEnd tStart cnt cnt2
    rfl
  · intro avg tEnd tStart cnt
    rfl

/-- C3 (amended): for both endpoints the validation stages run in the
order geometry resolution first, then date parsing, and the first failure
encountered determines the returned error: a geometry failure is returned
unchanged whatever the date fields hold, and a date failure is returned
exactly when geometry resolution has already succeeded. -/
theorem pipeline_stage_order (table : String → Option BBox)
    (polyParse : Value → Except String Wkt) (parseDate : String → Option Int)
    (store : Option Wkt → Option Int → Option Int → List (Sample × Rat × Rat))
    (storeA : Option Wkt → Option Int → Option Int → List (Rat × Int × Int × Nat))
    (kw : Kwargs) :
    (∀ m c tr,
      parse_wkt_polygon_step table polyParse kw = (Outcome.clientError m c, tr) →
      get_data_pipeline table polyParse parseDate store kw
        = (Outcome.clientError m c, tr) ∧
      get_average_pipeline table polyParse parseDate storeA kw
        = (Outcome.clientError m c, tr)) ∧
    (∀ kw1 tr m c,
      parse_wkt_polygon_step table polyParse kw = (Outcome.ok kw1, tr) →
      parse_date_step parseDate ["begin", "end"] kw1 = Outcome.clientError m c →
      get_data_pipeline table polyParse parseDate store kw
        = (Outcome.clientError m c, tr) ∧
      get_average_pipeline table polyParse parseDate storeA kw
        = (Outcome.clientError m c, tr)) := by
  constructor
  · intro m c tr h
    constructor <;> simp [get_data_pipeline, get_average_pipeline, h]
  · intro kw1 tr m c h hd
    constructor <;> simp [get_data_pipeline, get_average_pipeline, h, hd]

/-- Closed instantiation of `pipeline_stage_order`: a geometry failure
wins over an unparseable `begin`, and with valid geometry the date error
is returned. -/
theorem pipeline_stage_order_witness :
    get_data_pipeline table0 polyParse0 parseDate0 store0
        [("begin", Value.vStr "nope"), ("geoframe", Value.vNums [1, 2, 3])]
      = (Outcome.clientError "Invalid geoparam" 400, []) ∧
    get_data_pipeline table0 polyParse0 parseDate0 store0
        [("begin", Value.vStr "nope"), ("country", Value.vStr "DE")]
      = (Outcome.clientError "Invalid begin" 400,
          [Event.evCountryLookup (Value.vStr "DE")]) :=
  ⟨((pipeline_stage_order table0 polyParse0 parseDate0 store0 storeAvg0
      [("begin", Value.vStr "nope"), ("geoframe", Value.vNums [1, 2, 3])]).1
      "Invalid geoparam" 400 [] (by decide)).1,
    ((pipeline_stage_order table0 polyParse0 parseDate0 store0 storeAvg0
      [("begin", Value.vStr "nope"), ("country", Value.vStr "DE")]).2
      [("begin", Value.vStr "nope"),
        ("wkt_polygon", Value.vWkt [(5, 47), (5, 55), (15, 55), (15, 47), (5, 47)])]
      [Event.evCountryLookup (Value.vStr "DE")] "Invalid begin" 400
      (by decide) (by decide)).1⟩

/-- C3 counterexample: on a request whose `begin` is unparseable and whose
geoframe is invalid, the pipeline returns the geometry error `('Invalid
geoparam', 400)` and not the date error `('Invalid begin', 400)` the claim
predicts, because geometry resolution runs before date parsing. -/
theorem pipeline_date_first_counterexample :
    (get_data_pipeline table0 polyParse0 parseDate0 store0
        [("begin", Value.vStr "nope"), ("geoframe", Value.vNums [1, 2, 3])]).1
      = Outcome.clientError "Invalid geoparam" 400 ∧
    ¬ (get_data_pipeline table0 polyParse0 parseDate0 store0
        [("begin", Value.vStr "nope"), ("geoframe", Value.vNums [1, 2, 3])]).1
      = Outcome.clientError "Invalid begin" 400 := by
  decide

/-- C4: whenever a validation stage fails — the geometry resolver or the
date parser returns a `(message, code)` pair — both endpoints answer
exactly `(message, 400)`, and the request trace records neither a session
acquisition nor a store query: the wrapped handler never runs. -/
theorem no_store_on_validation_failure (table : String → Option BBox)
    (polyParse : Value → Except String Wkt) (parseDate : String → Option Int)
    (store : Option Wkt → Option Int → Option Int → List (Sample × Rat × Rat))
    (storeA : Option Wkt → Option Int → Option Int → List (Rat × Int × Int × Nat))
    (kw : Kwargs) :
    (∀ m c tr,
      parse_wkt_polygon_step table polyParse kw = (Outcome.clientError m c, tr) →
      get_data_pipeline table polyParse parseDate store kw
        = (Outcome.clientError m 400, tr) ∧
      get_average_pipeline table polyParse parseDate storeA kw
        = (Outcome.clientError m 400, tr) ∧
      noStoreOrSession tr) ∧
    (∀ kw1 tr m c,
      parse_wkt_polygon_step table polyParse kw = (Outcome.ok kw1, tr) →
      parse_date_step parseDate ["begin", "end"] kw1 = Outcome.clientError m c →
      get_data_pipeline table polyParse parseDate store kw
        = (Outcome.clientError m 400, tr) ∧
      get_average_pipeline table polyParse parseDate storeA kw
        = (Outcome.clientError m 400, tr) ∧
      noStoreOrSession tr) := by
  constructor
  · intro m c tr h
    have hc : c = 400 := resolver_code_400 table polyParse kw m c (by rw [h])
    subst hc
    refine ⟨?_, ?_, ?_⟩
    · simp [get_data_pipeline, h]
    · simp [get_average_pipeline, h]
    · have ht : tr = (parse_wkt_polygon_step table polyParse kw).2 := by rw [h]
      rw [ht]
      exact resolver_trace_no_store table polyParse kw
  · intro kw1 tr m c h hd
    have hc : c = 400 := date_step_code_400 parseDate ["begin", "end"] kw1 m c hd
    subst hc
    refine ⟨?_, ?_, ?_⟩
    · simp [get_data_pipeline, h, hd]
    · simp [get_average_pipeline, h, hd]
    · have ht : tr = (parse_wkt_polygon_step table polyParse kw).2 := by rw [h]
      rw [ht]
      exact resolver_trace_no_store table polyParse kw

/-- Closed instantiation of `no_store_on_validation_failure` at an
unknown country code: the request is rejected with status 400 and the
trace holds only the country-table lookup. -/
theorem no_store_on_validation_failure_witness :
    get_data_pipeline table0 polyParse0 parseDate0 store0
        [("country", Value.vStr "ZZ")]
      = (Outcome.clientError "Unknown country code." 400,
          [Event.evCountryLookup (Value.vStr "ZZ")]) ∧
    get_average_pipeline table0 polyParse0 parseDate0 storeAvg0
        [("country", Value.vStr "ZZ")]
      = (Outcome.clientError "Unknown country code." 400,
          [Event.evCountryLookup (Value.vStr "ZZ")]) :=
  ⟨((no_store_on_validation_failure table0 polyParse0 parseDate0 store0 storeAvg0
      [("country", Value.vStr "ZZ")]).1 "Unknown country code." 400
      [Event.evCountryLookup (Value.vStr "ZZ")] (by decide)).1,
    ((no_store_on_validation_failure table0 polyParse0 parseDate0 store0 storeAvg0
      [("country", Value.vStr "ZZ")]).1 "Unknown country code." 400
      [Event.evCountryLookup (Value.vStr "ZZ")] (by decide)).2.1⟩

end EmissionsApi
